import Mathlib

/-!
Verification of the invoice-automation pipeline (extraction, validation,
orchestration, retry) against its specification.

The Python source is shallowly embedded:
* `Decimal` amounts become `ℚ` (Python `Decimal` is exact, so comparisons,
  sums and equalities are faithfully represented by rationals);
* calendar dates become `ℤ` (a day ordinal: only `<`, `>` comparisons and
  subtraction of a number of days are used by the code);
* exceptions become `Except` / explicit error inductives;
* external collaborators (mailbox, store, notifier) become oracle records
  describing the outcome of each call the orchestrator makes, and the
  orchestrator model threads an explicit effect trace counting those calls.
-/

namespace InvoiceAutomation

/-! ## Data model (src/models.py) -/

/-- `ProcessingStatus` from src/models.py. -/
inductive ProcessingStatus where
  | pending
  | fetched
  | parsed
  | validated
  | validationFailed
  | stored
  | notified
  | failed
  | duplicate
deriving DecidableEq, Repr

/-- `LineItem` from src/models.py (frozen dataclass). -/
structure LineItem where
  description : String
  quantity : ℤ
  unit_price : ℚ
  total : ℚ
deriving DecidableEq, Repr

/-- `InvoiceData` from src/models.py, minus `vendor_email`, `subtotal`,
`tax` which no modelled code reads.  `invoice_date`/`due_date` are day
ordinals, `total_amount` is the exact decimal as a rational. -/
structure InvoiceData where
  invoice_number : String
  vendor_name : String
  invoice_date : ℤ
  due_date : Option ℤ
  total_amount : ℚ
  currency : String := "USD"
  po_number : Option String := none
  line_items : List LineItem := []
  raw_text : String := ""
deriving DecidableEq, Repr

/-- `InvoiceData.__post_init__` (src/models.py lines 81-86): construction
fails with `ValueError` when the total is not strictly positive, then when
the invoice number is empty (Python falsiness of a string = emptiness). -/
def mkInvoiceData (invoice_number vendor_name : String) (invoice_date : ℤ)
    (due_date : Option ℤ) (total_amount : ℚ) (po_number : Option String)
    (line_items : List LineItem) (raw_text : String) :
    Except String InvoiceData :=
  if total_amount ≤ 0 then
    .error "Invoice total must be positive"
  else if invoice_number = "" then
    .error "Invoice number is required"
  else
    .ok { invoice_number := invoice_number, vendor_name := vendor_name,
          invoice_date := invoice_date, due_date := due_date,
          total_amount := total_amount, po_number := po_number,
          line_items := line_items, raw_text := raw_text }

/-- `EmailAttachment` from src/models.py; the raw `content` bytes and the
email date are never inspected by the orchestrator, so they are omitted. -/
structure EmailAttachment where
  filename : String
  email_subject : String
  email_from : String
  email_uid : String
deriving DecidableEq, Repr

/-- `ValidationResult` from src/models.py (mutable accumulator dataclass). -/
structure ValidationResult where
  is_valid : Bool := true
  errors : List String := []
  warnings : List String := []
  matched_po : Option String := none
  confidence_score : ℚ := 1
deriving DecidableEq, Repr

/-- `ValidationResult.add_error`: append the message and force invalidity. -/
def ValidationResult.add_error (r : ValidationResult) (message : String) :
    ValidationResult :=
  { r with errors := r.errors ++ [message], is_valid := false }

/-- `ValidationResult.add_warning`: append the message; validity untouched. -/
def ValidationResult.add_warning (r : ValidationResult) (message : String) :
    ValidationResult :=
  { r with warnings := r.warnings ++ [message] }

/-- `ProcessingResult` from src/models.py (timestamps omitted: wall-clock
values are never branched on). -/
structure ProcessingResult where
  attachment : EmailAttachment
  status : ProcessingStatus := .pending
  invoice_data : Option InvoiceData := none
  validation_errors : List String := []
  error_message : Option String := none
deriving DecidableEq, Repr

/-- `ProcessingResult.is_success` from src/models.py. -/
def ProcessingResult.is_success (r : ProcessingResult) : Bool :=
  r.status = .stored ∨ r.status = .notified

/-- `ProcessingResult.is_terminal` from src/models.py. -/
def ProcessingResult.is_terminal (r : ProcessingResult) : Bool :=
  r.status = .stored ∨ r.status = .notified ∨ r.status = .failed ∨
    r.status = .validationFailed ∨ r.status = .duplicate

/-! ## Rule validator (src/validator.py)

The validator object holds a `ValidationConfig` plus the two reference sets
loaded once at construction (`_valid_po_numbers`, `_approved_vendors`); the
sets are modelled as lists (only membership is used).  `date.today()` is an
explicit `today` parameter. -/

/-- The fields of `ValidationConfig` read by src/validator.py. -/
structure ValidationConfig where
  min_invoice_amount : ℚ
  max_invoice_amount : ℚ
  max_invoice_age_days : ℤ
deriving DecidableEq, Repr

/-- Characters admitted by the invoice-number character class: ASCII
letters, digits, dash, slash, underscore. -/
def invoiceNumberChar (c : Char) : Bool :=
  (c ≥ 'A' ∧ c ≤ 'Z') ∨ (c ≥ 'a' ∧ c ≤ 'z') ∨ (c ≥ '0' ∧ c ≤ '9') ∨
    c = '-' ∨ c = '/' ∨ c = '_'

/-- Python full match of one or more admitted characters, anchored at both
ends: the whole string is one or more admitted characters, optionally
followed by a single trailing newline (Python end-anchor also matches just
before a final newline). -/
def matchesInvoiceNumberRe (s : String) : Bool :=
  let core := if s.endsWith "\n" then s.dropRight 1 else s
  core ≠ "" ∧ core.toList.all invoiceNumberChar

/-- `InvoiceValidator._check_invoice_number_format`. -/
def checkInvoiceNumberFormat (invoice : InvoiceData) (r : ValidationResult) :
    ValidationResult :=
  if invoice.invoice_number = "" then
    r.add_error "Invoice number is empty"
  else if ¬ matchesInvoiceNumberRe invoice.invoice_number then
    r.add_error ("Invalid invoice number format: " ++ invoice.invoice_number)
  else r

/-- `InvoiceValidator._check_amount_range`. -/
def checkAmountRange (cfg : ValidationConfig) (invoice : InvoiceData)
    (r : ValidationResult) : ValidationResult :=
  if invoice.total_amount < cfg.min_invoice_amount then
    r.add_error ("Invoice amount below minimum")
  else if invoice.total_amount > cfg.max_invoice_amount then
    r.add_error ("Invoice amount exceeds maximum")
  else r

/-- `InvoiceValidator._check_po_number`: missing PO number is a warning;
with a non-empty reference set, an unknown PO number is an error; an empty
reference set appends nothing beyond the missing-PO warning. -/
def checkPoNumber (validPoNumbers : List String) (invoice : InvoiceData)
    (r : ValidationResult) : ValidationResult :=
  match invoice.po_number with
  | none => r.add_warning "No PO number on invoice"
  | some po =>
    if validPoNumbers ≠ [] ∧ ¬ validPoNumbers.contains po then
      r.add_error ("PO number " ++ po ++ " not found in reference data")
    else r

/-- `InvoiceValidator._check_approved_vendor`: with an empty reference set
the check returns immediately; otherwise the trimmed, lower-cased vendor
name must be in the set. -/
def checkApprovedVendor (approvedVendors : List String)
    (invoice : InvoiceData) (r : ValidationResult) : ValidationResult :=
  if approvedVendors = [] then r
  else if ¬ approvedVendors.contains invoice.vendor_name.trim.toLower then
    r.add_error ("Vendor " ++ invoice.vendor_name ++ " is not an approved vendor")
  else r

/-- `InvoiceValidator._check_line_items_sum`: no line items is a warning;
otherwise the exact sum of line totals must equal the invoice total. -/
def checkLineItemsSum (invoice : InvoiceData) (r : ValidationResult) :
    ValidationResult :=
  if invoice.line_items = [] then
    r.add_warning "No line items found on invoice"
  else if (invoice.line_items.map LineItem.total).sum ≠ invoice.total_amount then
    r.add_error "Line items sum does not match total amount"
  else r

/-- `InvoiceValidator._check_date_sanity`: future date and too-old date are
independent errors; a due date before the invoice date is a warning. -/
def checkDateSanity (cfg : ValidationConfig) (today : ℤ)
    (invoice : InvoiceData) (r : ValidationResult) : ValidationResult :=
  let r1 := if invoice.invoice_date > today then
      r.add_error "Invoice date is in the future"
    else r
  let r2 := if invoice.invoice_date < today - cfg.max_invoice_age_days then
      r1.add_error "Invoice date is older than the maximum age"
    else r1
  match invoice.due_date with
  | some d => if d < invoice.invoice_date then
      r2.add_warning "Due date is before invoice date"
    else r2
  | none => r2

/-- `InvoiceValidator.validate`: run the six checks in order against a fresh
`ValidationResult`. -/
def validate (cfg : ValidationConfig) (validPoNumbers approvedVendors : List String)
    (today : ℤ) (invoice : InvoiceData) : ValidationResult :=
  let r : ValidationResult := {}
  let r := checkInvoiceNumberFormat invoice r
  let r := checkAmountRange cfg invoice r
  let r := checkPoNumber validPoNumbers invoice r
  let r := checkApprovedVendor approvedVendors invoice r
  let r := checkLineItemsSum invoice r
  let r := checkDateSanity cfg today invoice r
  r

/-! ## Invariants of verdict accumulation

Every check only appends to the error and warning lists of the verdict it
is given, forces `is_valid` to `false` exactly when it appended at least
one error, and leaves `matched_po` and `confidence_score` untouched.  This
is captured by `ExtendsBy` and proved once per check. -/

/-- `r'` is `r` with some errors `es` and warnings `ws` appended; validity
survives exactly when no error was appended; the PO-match and confidence
fields are untouched. -/
def ExtendsBy (r r' : ValidationResult) : Prop :=
  ∃ es ws, r'.errors = r.errors ++ es ∧ r'.warnings = r.warnings ++ ws ∧
    r'.is_valid = (r.is_valid && es.isEmpty) ∧
    r'.matched_po = r.matched_po ∧
    r'.confidence_score = r.confidence_score

lemma isEmpty_append (l₁ l₂ : List String) :
    (l₁ ++ l₂).isEmpty = (l₁.isEmpty && l₂.isEmpty) := by
  cases l₁ <;> simp [List.isEmpty]

lemma extendsBy_refl (r : ValidationResult) : ExtendsBy r r :=
  ⟨[], [], by simp⟩

lemma extendsBy_trans {r₁ r₂ r₃ : ValidationResult}
    (h₁ : ExtendsBy r₁ r₂) (h₂ : ExtendsBy r₂ r₃) : ExtendsBy r₁ r₃ := by
  obtain ⟨es₁, ws₁, he₁, hw₁, hv₁, hm₁, hc₁⟩ := h₁
  obtain ⟨es₂, ws₂, he₂, hw₂, hv₂, hm₂, hc₂⟩ := h₂
  refine ⟨es₁ ++ es₂, ws₁ ++ ws₂, ?_, ?_, ?_, ?_, ?_⟩
  · simp [he₂, he₁]
  · simp [hw₂, hw₁]
  · simp [hv₂, hv₁, isEmpty_append, Bool.and_assoc]
  · simp [hm₂, hm₁]
  · simp [hc₂, hc₁]

lemma extendsBy_add_error (r : ValidationResult) (m : String) :
    ExtendsBy r (r.add_error m) :=
  ⟨[m], [], by simp [ValidationResult.add_error]⟩

lemma extendsBy_add_warning (r : ValidationResult) (m : String) :
    ExtendsBy r (r.add_warning m) :=
  ⟨[], [m], by simp [ValidationResult.add_warning]⟩

lemma extendsBy_ite_add_error {r r' : ValidationResult} (c : Prop)
    [Decidable c] (m : String) (h : ExtendsBy r r') :
    ExtendsBy r (if c then r'.add_error m else r') := by
  split
  · exact extendsBy_trans h (extendsBy_add_error r' m)
  · exact h

lemma extendsBy_ite_add_warning {r r' : ValidationResult} (c : Prop)
    [Decidable c] (m : String) (h : ExtendsBy r r') :
    ExtendsBy r (if c then r'.add_warning m else r') := by
  split
  · exact extendsBy_trans h (extendsBy_add_warning r' m)
  · exact h

lemma extendsBy_checkInvoiceNumberFormat (invoice : InvoiceData)
    (r : ValidationResult) : ExtendsBy r (checkInvoiceNumberFormat invoice r) := by
  unfold checkInvoiceNumberFormat
  split
  · exact extendsBy_add_error r _
  · split
    · exact extendsBy_add_error r _
    · exact extendsBy_refl r

lemma extendsBy_checkAmountRange (cfg : ValidationConfig)
    (invoice : InvoiceData) (r : ValidationResult) :
    ExtendsBy r (checkAmountRange cfg invoice r) := by
  unfold checkAmountRange
  split
  · exact extendsBy_add_error r _
  · split
    · exact extendsBy_add_error r _
    · exact extendsBy_refl r

lemma extendsBy_checkPoNumber (validPoNumbers : List String)
    (invoice : InvoiceData) (r : ValidationResult) :
    ExtendsBy r (checkPoNumber validPoNumbers invoice r) := by
  unfold checkPoNumber
  cases invoice.po_number with
  | none => exact extendsBy_add_warning r _
  | some po =>
    simp only
    split
    · exact extendsBy_add_error r _
    · exact extendsBy_refl r

lemma extendsBy_checkApprovedVendor (approvedVendors : List String)
    (invoice : InvoiceData) (r : ValidationResult) :
    ExtendsBy r (checkApprovedVendor approvedVendors invoice r) := by
  unfold checkApprovedVendor
  split
  · exact extendsBy_refl r
  · split
    · exact extendsBy_add_error r _
    · exact extendsBy_refl r

lemma extendsBy_checkLineItemsSum (invoice : InvoiceData)
    (r : ValidationResult) : ExtendsBy r (checkLineItemsSum invoice r) := by
  unfold checkLineItemsSum
  split
  · exact extendsBy_add_warning r _
  · split
    · exact extendsBy_add_error r _
    · exact extendsBy_refl r

lemma extendsBy_checkDateSanity (cfg : ValidationConfig) (today : ℤ)
    (invoice : InvoiceData) (r : ValidationResult) :
    ExtendsBy r (checkDateSanity cfg today invoice r) := by
  unfold checkDateSanity
  cases invoice.due_date with
  | none =>
    exact extendsBy_ite_add_error _ _ (extendsBy_ite_add_error _ _ (extendsBy_refl r))
  | some d =>
    exact extendsBy_ite_add_warning _ _
      (extendsBy_ite_add_error _ _ (extendsBy_ite_add_error _ _ (extendsBy_refl r)))

lemma extendsBy_validate (cfg : ValidationConfig)
    (validPoNumbers approvedVendors : List String) (today : ℤ)
    (invoice : InvoiceData) :
    ExtendsBy {} (validate cfg validPoNumbers approvedVendors today invoice) := by
  unfold validate
  exact extendsBy_trans (extendsBy_checkInvoiceNumberFormat invoice _)
    (extendsBy_trans (extendsBy_checkAmountRange cfg invoice _)
      (extendsBy_trans (extendsBy_checkPoNumber validPoNumbers invoice _)
        (extendsBy_trans (extendsBy_checkApprovedVendor approvedVendors invoice _)
          (extendsBy_trans (extendsBy_checkLineItemsSum invoice _)
            (extendsBy_checkDateSanity cfg today invoice _)))))

/-- Example fixtures for witnesses. -/
def cfgEx : ValidationConfig where
  min_invoice_amount := 1
  max_invoice_amount := 10000
  max_invoice_age_days := 365

def invEx : InvoiceData :=
  { invoice_number := "INV-2024-001", vendor_name := "Acme Corp",
    invoice_date := 0, due_date := none, total_amount := 500 }

/-! ## Claim theorems: validator and data model -/

/-- C4: for every verdict the validator produces, the validity flag is true
exactly when the error list is empty; appending an error always forces
validity false, appending a warning never changes validity. -/
theorem C4_validity_iff_no_errors :
    (∀ (r : ValidationResult) (m : String), (r.add_error m).is_valid = false) ∧
    (∀ (r : ValidationResult) (m : String),
      (r.add_warning m).is_valid = r.is_valid) ∧
    (∀ (cfg : ValidationConfig) (validPoNumbers approvedVendors : List String)
      (today : ℤ) (invoice : InvoiceData),
      (validate cfg validPoNumbers approvedVendors today invoice).is_valid = true ↔
        (validate cfg validPoNumbers approvedVendors today invoice).errors = []) := by
  refine ⟨fun r m => rfl, fun r m => rfl, ?_⟩
  intro cfg po vnd today invoice
  obtain ⟨es, ws, he, hw, hv, hm, hc⟩ := extendsBy_validate cfg po vnd today invoice
  rw [he, hv]
  cases es <;> simp [List.isEmpty]

/-- C5: invoice-record construction succeeds exactly when the total amount
is strictly positive and the invoice number is non-empty, and every
constructed record satisfies both invariants. -/
theorem C5_construction_invariant :
    (∀ (n v : String) (d : ℤ) (dd : Option ℤ) (t : ℚ) (po : Option String)
      (li : List LineItem) (raw : String),
      (mkInvoiceData n v d dd t po li raw).isOk = true ↔ (0 < t ∧ n ≠ "")) ∧
    (∀ (n v : String) (d : ℤ) (dd : Option ℤ) (t : ℚ) (po : Option String)
      (li : List LineItem) (raw : String) (inv : InvoiceData),
      mkInvoiceData n v d dd t po li raw = .ok inv →
        0 < inv.total_amount ∧ inv.invoice_number ≠ "") := by
  constructor
  · intro n v d dd t po li raw
    unfold mkInvoiceData
    by_cases h1 : t ≤ 0
    · rw [if_pos h1]
      simp only [Except.isOk, Except.toBool]
      constructor
      · intro h
        exact absurd h (by simp)
      · intro h
        exact absurd h1 (not_le.mpr h.1)
    · by_cases h2 : n = ""
      · rw [if_neg h1, if_pos h2]
        simp only [Except.isOk, Except.toBool]
        constructor
        · intro h
          exact absurd h (by simp)
        · intro h
          exact absurd h2 h.2
      · rw [if_neg h1, if_neg h2]
        simp only [Except.isOk, Except.toBool]
        exact iff_of_true trivial ⟨not_le.mp h1, h2⟩
  · intro n v d dd t po li raw inv h
    unfold mkInvoiceData at h
    by_cases h1 : t ≤ 0
    · rw [if_pos h1] at h
      exact absurd h (by simp)
    · by_cases h2 : n = ""
      · rw [if_neg h1, if_pos h2] at h
        exact absurd h (by simp)
      · rw [if_neg h1, if_neg h2, Except.ok.injEq] at h
        subst h
        exact ⟨not_le.mp h1, h2⟩

/-- C5 witness: a concrete successful construction. -/
theorem C5_construction_invariant_witness :
    0 < (5 : ℚ) ∧ "INV-1" ≠ "" ∧
      ∀ inv, mkInvoiceData "INV-1" "Acme" 0 none 5 none [] "" = .ok inv →
        0 < inv.total_amount ∧ inv.invoice_number ≠ "" := by
  refine ⟨by norm_num, by decide, fun inv h =>
    C5_construction_invariant.2 "INV-1" "Acme" 0 none 5 none [] "" inv h⟩

/-- C9: an empty purchase-order reference set makes the PO check append no
error; an empty approved-vendor reference set makes the vendor check a
no-op; an absent PO number yields exactly one warning and no error,
regardless of the reference set. -/
theorem C9_empty_reference_sets_disable_checks :
    (∀ (invoice : InvoiceData) (r : ValidationResult),
      (checkPoNumber [] invoice r).errors = r.errors) ∧
    (∀ (invoice : InvoiceData) (r : ValidationResult),
      checkApprovedVendor [] invoice r = r) ∧
    (∀ (validPoNumbers : List String) (invoice : InvoiceData)
      (r : ValidationResult), invoice.po_number = none →
      (checkPoNumber validPoNumbers invoice r).errors = r.errors ∧
      (checkPoNumber validPoNumbers invoice r).warnings =
        r.warnings ++ ["No PO number on invoice"]) := by
  refine ⟨?_, ?_, ?_⟩
  · intro invoice r
    unfold checkPoNumber
    cases invoice.po_number with
    | none => simp [ValidationResult.add_warning]
    | some po => simp
  · intro invoice r
    unfold checkApprovedVendor
    simp
  · intro poSet invoice r h
    unfold checkPoNumber
    rw [h]
    simp [ValidationResult.add_warning]

/-- C9 witness: concrete invoice without a PO number. -/
theorem C9_empty_reference_sets_disable_checks_witness :
    invEx.po_number = none ∧
      (checkPoNumber ["PO-1"] invEx {}).errors = ({} : ValidationResult).errors ∧
      (checkPoNumber ["PO-1"] invEx {}).warnings =
        ({} : ValidationResult).warnings ++ ["No PO number on invoice"] :=
  ⟨rfl, C9_empty_reference_sets_disable_checks.2.2 ["PO-1"] invEx {} rfl⟩

/-- C10: every verdict the validator returns has `matched_po = none` and
`confidence_score = 1.0`: no check ever assigns either field. -/
theorem C10_matched_po_none_confidence_one :
    ∀ (cfg : ValidationConfig) (validPoNumbers approvedVendors : List String)
      (today : ℤ) (invoice : InvoiceData),
      (validate cfg validPoNumbers approvedVendors today invoice).matched_po = none ∧
      (validate cfg validPoNumbers approvedVendors today invoice).confidence_score = 1 := by
  intro cfg po vnd today invoice
  obtain ⟨es, ws, he, hw, hv, hm, hc⟩ := extendsBy_validate cfg po vnd today invoice
  exact ⟨hm, hc⟩

/-! ## Retry policy (src/retry.py)

`retry(...)` wraps an operation in a loop over attempts `1..max_attempts`.
The wrapped operation is modelled as `op : ℕ → Except ε α` (the outcome of
each numbered attempt), the `retryable_exceptions` tuple as a predicate,
and `random.uniform(0.5, 1.0)` as an explicit jitter stream
`jitter : ℕ → ℚ`.  The model returns the list of computed sleep delays
alongside the result (the `on_retry` callback and logging are pure
observation and are not modelled).  The `assert last_exception is not
None` line, reachable only when `max_attempts < 1`, is the
`assertFailed` outcome. -/

/-- The keyword parameters of `retry` in src/retry.py. -/
structure RetryConfig where
  maxAttempts : ℕ
  baseDelay : ℚ
  maxDelay : ℚ
  exponentialBase : ℚ
deriving DecidableEq, Repr

/-- The distinguishable ways the wrapper can finish: a value, the raw
non-retryable error propagated immediately, the distinguished
`RetryExhaustedError` carrying attempt count and last underlying error, or
the `AssertionError` reachable only with `max_attempts < 1`. -/
inductive RetryResult (ε α : Type) where
  | ok (a : α)
  | raw (e : ε)
  | exhausted (attempts : ℕ) (last : ε)
  | assertFailed
deriving DecidableEq, Repr

/-- The un-jittered delay computed after failed attempt `attempt`
(src/retry.py lines 57-60). -/
def backoffDelay (cfg : RetryConfig) (attempt : ℕ) : ℚ :=
  min (cfg.baseDelay * cfg.exponentialBase ^ (attempt - 1)) cfg.maxDelay

/-- The retry loop (src/retry.py lines 48-77), structurally recursive on
the number of remaining loop iterations; `sleeps` accumulates every
jittered delay passed to `time.sleep`. -/
def retryGo {ε α : Type} (cfg : RetryConfig) (retryable : ε → Bool)
    (op : ℕ → Except ε α) (jitter : ℕ → ℚ) :
    ℕ → ℕ → List ℚ → RetryResult ε α × List ℚ
  | 0, _, sleeps => (.assertFailed, sleeps)
  | remaining + 1, attempt, sleeps =>
    match op attempt with
    | .ok a => (.ok a, sleeps)
    | .error e =>
      if retryable e then
        if attempt = cfg.maxAttempts then (.exhausted cfg.maxAttempts e, sleeps)
        else retryGo cfg retryable op jitter remaining (attempt + 1)
          (sleeps ++ [backoffDelay cfg attempt * jitter attempt])
      else (.raw e, sleeps)

/-- One call of the `retry`-wrapped function: attempts start at 1 and the
loop body runs at most `max_attempts` times. -/
def retryRun {ε α : Type} (cfg : RetryConfig) (retryable : ε → Bool)
    (op : ℕ → Except ε α) (jitter : ℕ → ℚ) : RetryResult ε α × List ℚ :=
  retryGo cfg retryable op jitter cfg.maxAttempts 1 []

lemma retryGo_exhausts {ε α : Type} (cfg : RetryConfig) (retryable : ε → Bool)
    (op : ℕ → Except ε α) (jitter : ℕ → ℚ) :
    ∀ (remaining attempt : ℕ) (sleeps : List ℚ),
      remaining = cfg.maxAttempts + 1 - attempt →
      1 ≤ attempt → attempt ≤ cfg.maxAttempts →
      (∀ n, attempt ≤ n → n ≤ cfg.maxAttempts →
        ∃ e, op n = .error e ∧ retryable e = true) →
      ∃ e, op cfg.maxAttempts = .error e ∧
        (retryGo cfg retryable op jitter remaining attempt sleeps).1 =
          .exhausted cfg.maxAttempts e := by
  intro remaining
  induction remaining with
  | zero =>
    intro attempt sleeps hrem h1 hle _
    omega
  | succ rem ih =>
    intro attempt sleeps hrem h1 hle hall
    obtain ⟨e, hop, hret⟩ := hall attempt le_rfl hle
    by_cases heq : attempt = cfg.maxAttempts
    · subst heq
      refine ⟨e, hop, ?_⟩
      simp [retryGo, hop, hret]
    · have h2 : attempt + 1 ≤ cfg.maxAttempts := by omega
      obtain ⟨e', hop', hgo⟩ := ih (attempt + 1)
        (sleeps ++ [backoffDelay cfg attempt * jitter attempt])
        (by omega) (by omega) h2
        (fun n hn hn' => hall n (by omega) hn')
      refine ⟨e', hop', ?_⟩
      simp [retryGo, hop, hret, heq, hgo]

lemma retryGo_sleeps_mem {ε α : Type} (cfg : RetryConfig) (retryable : ε → Bool)
    (op : ℕ → Except ε α) (jitter : ℕ → ℚ) :
    ∀ (remaining attempt : ℕ) (sleeps : List ℚ) (d : ℚ),
      attempt ≤ cfg.maxAttempts →
      d ∈ (retryGo cfg retryable op jitter remaining attempt sleeps).2 →
      d ∈ sleeps ∨ ∃ n, attempt ≤ n ∧ n < cfg.maxAttempts ∧
        d = backoffDelay cfg n * jitter n := by
  intro remaining
  induction remaining with
  | zero =>
    intro attempt sleeps d _ hd
    exact .inl hd
  | succ rem ih =>
    intro attempt sleeps d hle hd
    cases hop : op attempt with
    | ok a =>
      rw [retryGo, hop] at hd
      exact .inl hd
    | error e =>
      by_cases hret : retryable e
      · by_cases heq : attempt = cfg.maxAttempts
        · subst heq
          simp [retryGo, hop, hret] at hd
          exact .inl hd
        · simp only [retryGo, hop, hret, heq, if_true, if_false,
            ite_true, ite_false, if_pos, if_neg, not_false_iff] at hd
          have h2 : attempt + 1 ≤ cfg.maxAttempts := by omega
          rcases ih (attempt + 1) _ d h2 hd with hmem | ⟨n, hn, hn', hdn⟩
          · rcases List.mem_append.mp hmem with hmem' | hmem'
            · exact .inl hmem'
            · refine .inr ⟨attempt, le_rfl, by omega, ?_⟩
              simpa using hmem'
          · exact .inr ⟨n, by omega, hn', hdn⟩
      · simp only [retryGo, hop, hret, if_false, ite_false, Bool.false_eq_true] at hd
        exact .inl hd

/-! ## Claim theorems: retry policy -/

/-- C7: when every attempt up to the configured maximum fails with a
retryable error, the wrapper finishes with the distinguished
retry-exhausted outcome carrying the attempt count and the last underlying
error, and never re-raises a raw underlying error. -/
theorem C7_retry_exhaustion {ε α : Type} (cfg : RetryConfig)
    (retryable : ε → Bool) (op : ℕ → Except ε α) (jitter : ℕ → ℚ)
    (hmax : 1 ≤ cfg.maxAttempts)
    (hall : ∀ n, 1 ≤ n → n ≤ cfg.maxAttempts →
      ∃ e, op n = .error e ∧ retryable e = true) :
    ∃ e, op cfg.maxAttempts = .error e ∧
      (retryRun cfg retryable op jitter).1 = .exhausted cfg.maxAttempts e ∧
      ∀ e', (retryRun cfg retryable op jitter).1 ≠ .raw e' := by
  obtain ⟨e, hop, hgo⟩ := retryGo_exhausts cfg retryable op jitter
    cfg.maxAttempts 1 [] (by omega) le_rfl hmax hall
  have hrun : (retryRun cfg retryable op jitter).1 =
      .exhausted cfg.maxAttempts e := hgo
  exact ⟨e, hop, hrun, fun e' h => by rw [hrun] at h; cases h⟩

/-- C7 witness: three retryable failures with `max_attempts = 3`. -/
theorem C7_retry_exhaustion_witness :
    1 ≤ (RetryConfig.mk 3 1 100 2).maxAttempts ∧
    ∃ e, (fun _ => (.error 7 : Except ℕ ℕ)) (RetryConfig.mk 3 1 100 2).maxAttempts
        = .error e ∧
      (retryRun (RetryConfig.mk 3 1 100 2) (fun _ => true)
        (fun _ => (.error 7 : Except ℕ ℕ)) (fun _ => 3/4)).1 =
        .exhausted (RetryConfig.mk 3 1 100 2).maxAttempts e ∧
      ∀ e', (retryRun (RetryConfig.mk 3 1 100 2) (fun _ => true)
        (fun _ => (.error 7 : Except ℕ ℕ)) (fun _ => 3/4)).1 ≠ .raw e' :=
  ⟨by norm_num,
   C7_retry_exhaustion (RetryConfig.mk 3 1 100 2) (fun _ => true)
     (fun _ => (.error 7 : Except ℕ ℕ)) (fun _ => 3/4) (by norm_num)
     (fun n _ _ => ⟨7, rfl, rfl⟩)⟩

/-- C8: every delay the wrapper ever sleeps is the jittered exponential
backoff for the attempt it follows and, when the jitter draw lies in
the interval from one half to one and the configured delays are
non-negative, it lies between half the capped exponential delay and the
capped exponential delay itself; with `max_attempts = 3`,
`base_delay = 1.0`, `exponential_base = 2.0`, `max_delay = 100.0` the
capped delay after attempt `n` is `min(1.0 * 2 ^ (n-1), 100.0)`. -/
theorem C8_backoff_delay_bounds {ε α : Type} (cfg : RetryConfig)
    (retryable : ε → Bool) (op : ℕ → Except ε α) (jitter : ℕ → ℚ)
    (hbase : 0 ≤ cfg.baseDelay) (hmaxd : 0 ≤ cfg.maxDelay)
    (hexp : 0 ≤ cfg.exponentialBase)
    (hjit : ∀ n, 1/2 ≤ jitter n ∧ jitter n ≤ 1) :
    (∀ d ∈ (retryRun cfg retryable op jitter).2,
      ∃ n, 1 ≤ n ∧ n < cfg.maxAttempts ∧
        d = backoffDelay cfg n * jitter n ∧
        1/2 * backoffDelay cfg n ≤ d ∧ d ≤ 1 * backoffDelay cfg n) ∧
    (∀ n, backoffDelay (RetryConfig.mk 3 1 100 2) n =
      min ((1 : ℚ) * 2 ^ (n - 1)) 100) := by
  constructor
  · intro d hd
    have hB : ∀ n, 0 ≤ backoffDelay cfg n := by
      intro n
      exact le_min (mul_nonneg hbase (pow_nonneg hexp _)) hmaxd
    rcases Nat.eq_zero_or_pos cfg.maxAttempts with h0 | hpos
    · rw [retryRun, h0, retryGo] at hd
      cases hd
    · rcases retryGo_sleeps_mem cfg retryable op jitter cfg.maxAttempts 1 [] d
        hpos hd with hmem | ⟨n, hn, hn', hdn⟩
      · cases hmem
      · refine ⟨n, hn, hn', hdn, ?_, ?_⟩
        · rw [hdn, mul_comm (1/2 : ℚ) (backoffDelay cfg n)]
          exact mul_le_mul_of_nonneg_left (hjit n).1 (hB n)
        · rw [hdn, one_mul]
          calc backoffDelay cfg n * jitter n
              ≤ backoffDelay cfg n * 1 :=
                mul_le_mul_of_nonneg_left (hjit n).2 (hB n)
            _ = backoffDelay cfg n := mul_one _
  · intro n
    rfl

/-- C8 witness: the concrete configuration from the spec with jitter 3/4. -/
theorem C8_backoff_delay_bounds_witness :
    (0 : ℚ) ≤ 1 ∧ (0 : ℚ) ≤ 100 ∧ (0 : ℚ) ≤ 2 ∧
    (1/2 : ℚ) ≤ 3/4 ∧ (3/4 : ℚ) ≤ 1 ∧
    (∀ d ∈ (retryRun (RetryConfig.mk 3 1 100 2) (fun _ => true)
        (fun _ => (.error 7 : Except ℕ ℕ)) (fun _ => 3/4)).2,
      ∃ n, 1 ≤ n ∧ n < (RetryConfig.mk 3 1 100 2).maxAttempts ∧
        d = backoffDelay (RetryConfig.mk 3 1 100 2) n * (fun _ => (3/4 : ℚ)) n ∧
        1/2 * backoffDelay (RetryConfig.mk 3 1 100 2) n ≤ d ∧
        d ≤ 1 * backoffDelay (RetryConfig.mk 3 1 100 2) n) := by
  refine ⟨by norm_num, by norm_num, by norm_num, by norm_num, by norm_num, ?_⟩
  exact (C8_backoff_delay_bounds (RetryConfig.mk 3 1 100 2) (fun _ => true)
    (fun _ => (.error 7 : Except ℕ ℕ)) (fun _ => 3/4) (by norm_num)
    (by norm_num) (by norm_num) (fun n => ⟨by norm_num, by norm_num⟩)).1

/-! ## Pipeline orchestrator (src/pipeline.py)

The collaborators become oracles describing the outcome of each call the
orchestrator makes while processing one attachment.  Python exception
classes relevant to the handler chain of `_process_single` become the
`Exc` inductive; `str(exc)` is the carried message (for
`InvoiceAutomationError` subclasses, `str` returns the `message`
argument).  The notifier (src/notifier.py) raises `NotificationError`
only, and `InvoicePipeline._notify_success` and `_notify_failure` swallow
exactly that class, so notifier calls are modelled as a success `Bool`;
likewise `mark_as_processed` is wrapped in a bare `except Exception`, so
its outcome is a `Bool` that nothing reads.  An explicit `Trace` counts
the external calls the claims talk about. -/

/-- Exception classes distinguished by the handler chain of
`_process_single`: `PDFExtractionError`; `DatabaseError` and
`RetryExhaustedError`; everything else (`EmailConnectionError` is listed
separately because the mailbox raises it, but the pipeline treats it as a
generic `Exception`). -/
inductive Exc where
  | pdfExtraction (msg : String)
  | databaseErr (msg : String)
  | retryExhausted (msg : String)
  | emailConn (msg : String)
  | other (msg : String)
deriving DecidableEq, Repr

/-- Counts of the orchestrator's external calls during one run. -/
structure Trace where
  failureReports : ℕ := 0
  successReports : ℕ := 0
  markAttempts : ℕ := 0
  summaryReports : ℕ := 0
deriving DecidableEq, Repr

def Trace.add (t₁ t₂ : Trace) : Trace :=
  { failureReports := t₁.failureReports + t₂.failureReports,
    successReports := t₁.successReports + t₂.successReports,
    markAttempts := t₁.markAttempts + t₂.markAttempts,
    summaryReports := t₁.summaryReports + t₂.summaryReports }

/-- Oracle for the collaborator calls made while processing one
attachment.  Each of `parse`, `check_duplicate`, `insert_invoice` is
called at most once per item, so a single outcome suffices;
`notifySuccessOk` is whether `notify_success` went through without a
`NotificationError`; `markOk` is the outcome of `mark_as_processed`
(swallowed by the bare `except Exception`, so nothing depends on it). -/
structure ItemEnv where
  attachment : EmailAttachment
  parse : Except Exc InvoiceData
  validationOf : InvoiceData → ValidationResult
  checkDuplicate : Except Exc Bool
  insert : Except Exc Unit
  notifySuccessOk : Bool
  notifyFailureOk : Bool
  markOk : Bool

/-- The handler chain of `_process_single` (src/pipeline.py lines
223-252): `PDFExtractionError` sets FAILED, keeps `str(exc)` and sends a
failure report unless dry-run; `DatabaseError`/`RetryExhaustedError` set
FAILED with `str(exc)` and send nothing; any other exception sets FAILED
with the "Unexpected error: " prefix and sends nothing. -/
def handleExc (dryRun : Bool) (r : ProcessingResult) (t : Trace) (e : Exc) :
    ProcessingResult × Trace :=
  match e with
  | .pdfExtraction msg =>
    ({ r with status := .failed, error_message := some msg },
     if dryRun then t else { t with failureReports := t.failureReports + 1 })
  | .databaseErr msg =>
    ({ r with status := .failed, error_message := some msg }, t)
  | .retryExhausted msg =>
    ({ r with status := .failed, error_message := some msg }, t)
  | .emailConn msg =>
    ({ r with status := .failed
              error_message := some ("Unexpected error: " ++ msg) }, t)
  | .other msg =>
    ({ r with status := .failed
              error_message := some ("Unexpected error: " ++ msg) }, t)

/-- `InvoicePipeline._process_single` (src/pipeline.py lines 116-265):
parse, validate, duplicate-check/insert (skipped in dry-run), best-effort
success notification, then the attempt to mark the email processed, with
the handler chain around the whole sequence. -/
def processSingle (dryRun : Bool) (env : ItemEnv) : ProcessingResult × Trace :=
  let r1 : ProcessingResult := { attachment := env.attachment, status := .fetched }
  match env.parse with
  | .error e => handleExc dryRun r1 {} e
  | .ok inv =>
    let r2 := { r1 with invoice_data := some inv, status := .parsed }
    let vr := env.validationOf inv
    if vr.is_valid = false then
      ({ r2 with status := .validationFailed
                 validation_errors := vr.errors
                 error_message := some (String.intercalate "; " vr.errors) },
       if dryRun then {} else { failureReports := 1 })
    else
      let r3 := { r2 with status := .validated }
      if dryRun then
        ({ r3 with status := .stored }, { markAttempts := 1 })
      else
        match env.checkDuplicate with
        | .error e => handleExc dryRun r3 {} e
        | .ok true =>
          ({ r3 with status := .duplicate
                     error_message :=
                       some ("Duplicate invoice: " ++ inv.invoice_number) },
           {})
        | .ok false =>
          match env.insert with
          | .error e => handleExc dryRun r3 {} e
          | .ok _ =>
            let r4 := { r3 with status := .stored }
            let r5 := if env.notifySuccessOk then { r4 with status := .notified }
              else r4
            (r5, { successReports := 1, markAttempts := 1 })

/-- Oracle for a whole run: `fetch` is the mailbox context entry plus
`fetch_invoice_emails` (both inside the same `with` block), `dbConnect`
is the `DatabaseLoader` context entry, `summaryOk` the outcome of
`notify_summary` (`NotificationError` is swallowed by `_send_summary`). -/
structure RunEnv where
  fetch : Except Exc (List ItemEnv)
  dbConnect : Except Exc Unit
  summaryOk : Bool

/-- `InvoicePipeline.run` (src/pipeline.py lines 61-114): fetch the batch
(failure propagates), return early on an empty batch, open the store
(failure propagates), process every attachment in order, then send one
best-effort summary unless dry-run or no results. -/
def runPipeline (dryRun : Bool) (env : RunEnv) :
    Except Exc (List ProcessingResult × Trace) :=
  match env.fetch with
  | .error e => .error e
  | .ok attachments =>
    if attachments.isEmpty then .ok ([], {})
    else
      match env.dbConnect with
      | .error e => .error e
      | .ok _ =>
        let pairs := attachments.map (processSingle dryRun)
        let results := pairs.map Prod.fst
        let t := (pairs.map Prod.snd).foldl Trace.add {}
        let t := if dryRun ∨ results.isEmpty then t
          else { t with summaryReports := t.summaryReports + 1 }
        .ok (results, t)

/-! ### Symbolic execution of `processSingle`, one lemma per control path -/

lemma handleExc_status (d : Bool) (r : ProcessingResult) (t : Trace) (e : Exc) :
    (handleExc d r t e).1.status = .failed := by
  cases e <;> rfl

lemma handleExc_markAttempts (d : Bool) (r : ProcessingResult) (t : Trace)
    (e : Exc) : (handleExc d r t e).2.markAttempts = t.markAttempts := by
  cases e <;> cases d <;> rfl

lemma handleExc_terminal (d : Bool) (r : ProcessingResult) (t : Trace) (e : Exc) :
    (handleExc d r t e).1.is_terminal = true := by
  cases e <;> rfl

lemma processSingle_parse_error (dryRun : Bool) (env : ItemEnv) (e : Exc)
    (hp : env.parse = .error e) :
    processSingle dryRun env =
      handleExc dryRun { attachment := env.attachment, status := .fetched } {} e := by
  simp [processSingle, hp]

lemma processSingle_invalid (dryRun : Bool) (env : ItemEnv) (inv : InvoiceData)
    (hp : env.parse = .ok inv)
    (hv : (env.validationOf inv).is_valid = false) :
    processSingle dryRun env =
      ({ attachment := env.attachment, status := .validationFailed
         invoice_data := some inv
         validation_errors := (env.validationOf inv).errors
         error_message :=
           some (String.intercalate "; " (env.validationOf inv).errors) },
       if dryRun then {} else { failureReports := 1 }) := by
  simp [processSingle, hp, hv]

lemma processSingle_valid_dry (env : ItemEnv) (inv : InvoiceData)
    (hp : env.parse = .ok inv)
    (hv : (env.validationOf inv).is_valid = true) :
    processSingle true env =
      ({ attachment := env.attachment, status := .stored,
         invoice_data := some inv }, { markAttempts := 1 }) := by
  simp [processSingle, hp, hv]

lemma processSingle_dup_error (env : ItemEnv) (inv : InvoiceData) (e : Exc)
    (hp : env.parse = .ok inv)
    (hv : (env.validationOf inv).is_valid = true)
    (hd : env.checkDuplicate = .error e) :
    processSingle false env =
      handleExc false { attachment := env.attachment, status := .validated,
                        invoice_data := some inv } {} e := by
  simp [processSingle, hp, hv, hd]

lemma processSingle_duplicate (env : ItemEnv) (inv : InvoiceData)
    (hp : env.parse = .ok inv)
    (hv : (env.validationOf inv).is_valid = true)
    (hd : env.checkDuplicate = .ok true) :
    processSingle false env =
      ({ attachment := env.attachment, status := .duplicate,
         invoice_data := some inv,
         error_message := some ("Duplicate invoice: " ++ inv.invoice_number) },
       {}) := by
  simp [processSingle, hp, hv, hd]

lemma processSingle_insert_error (env : ItemEnv) (inv : InvoiceData) (e : Exc)
    (hp : env.parse = .ok inv)
    (hv : (env.validationOf inv).is_valid = true)
    (hd : env.checkDuplicate = .ok false)
    (hi : env.insert = .error e) :
    processSingle false env =
      handleExc false { attachment := env.attachment, status := .validated,
                        invoice_data := some inv } {} e := by
  simp [processSingle, hp, hv, hd, hi]

lemma processSingle_stored (env : ItemEnv) (inv : InvoiceData)
    (hp : env.parse = .ok inv)
    (hv : (env.validationOf inv).is_valid = true)
    (hd : env.checkDuplicate = .ok false)
    (hi : env.insert = .ok ()) :
    processSingle false env =
      ((if env.notifySuccessOk then
          { attachment := env.attachment, status := .notified,
            invoice_data := some inv }
        else
          { attachment := env.attachment, status := .stored,
            invoice_data := some inv }),
       { successReports := 1, markAttempts := 1 }) := by
  simp [processSingle, hp, hv, hd, hi]

/-- Every per-item outcome carries a terminal status: the handler chain of
`_process_single` catches every exception class. -/
lemma processSingle_terminal (dryRun : Bool) (env : ItemEnv) :
    (processSingle dryRun env).1.is_terminal = true := by
  cases hp : env.parse with
  | error e =>
    rw [processSingle_parse_error dryRun env e hp]
    exact handleExc_terminal ..
  | ok inv =>
    cases hv : (env.validationOf inv).is_valid with
    | false =>
      rw [processSingle_invalid dryRun env inv hp hv]
      rfl
    | true =>
      cases dryRun with
      | true =>
        rw [processSingle_valid_dry env inv hp hv]
        rfl
      | false =>
        cases hd : env.checkDuplicate with
        | error e =>
          rw [processSingle_dup_error env inv e hp hv hd]
          exact handleExc_terminal ..
        | ok b =>
          cases b with
          | true =>
            rw [processSingle_duplicate env inv hp hv hd]
            rfl
          | false =>
            cases hi : env.insert with
            | error e =>
              rw [processSingle_insert_error env inv e hp hv hd hi]
              exact handleExc_terminal ..
            | ok u =>
              cases u
              rw [processSingle_stored env inv hp hv hd hi]
              cases env.notifySuccessOk <;> rfl

/-! ### Concrete fixtures for pipeline counterexamples and witnesses -/

def attEx : EmailAttachment :=
  { filename := "invoice.pdf", email_subject := "Invoice",
    email_from := "billing@acme.example", email_uid := "42" }

/-- An attachment whose PDF parse raises `PDFExtractionError`. -/
def itemParseFailEnv : ItemEnv :=
  { attachment := attEx, parse := .error (.pdfExtraction "boom"),
    validationOf := fun _ => {}, checkDuplicate := .ok false,
    insert := .ok (), notifySuccessOk := true, notifyFailureOk := true,
    markOk := true }

/-- An attachment whose parse stage raises a generic unexpected error:
the `ValueError` escaping `InvoiceData.__post_init__` on a zero total. -/
def itemValueErrEnv : ItemEnv :=
  { attachment := attEx,
    parse := .error (.other "Invoice total must be positive"),
    validationOf := fun _ => {}, checkDuplicate := .ok false,
    insert := .ok (), notifySuccessOk := true, notifyFailureOk := true,
    markOk := true }

/-- An attachment that parses and validates but whose store insert raises
`DatabaseError`. -/
def itemDbErrEnv : ItemEnv :=
  { attachment := attEx, parse := .ok invEx,
    validationOf := fun _ => {}, checkDuplicate := .ok false,
    insert := .error (.databaseErr "db down"), notifySuccessOk := true,
    notifyFailureOk := true, markOk := true }

/-- An attachment that goes through every stage successfully. -/
def itemOkEnv : ItemEnv :=
  { attachment := attEx, parse := .ok invEx,
    validationOf := fun _ => {}, checkDuplicate := .ok false,
    insert := .ok (), notifySuccessOk := true, notifyFailureOk := true,
    markOk := true }

/-- A run whose batch fetch succeeds (one attachment) but whose store
connection raises `DatabaseError` on context entry. -/
def envC3 : RunEnv :=
  { fetch := .ok [itemOkEnv],
    dbConnect := .error (.databaseErr "engine down"), summaryOk := true }

/-- A fully successful run over one attachment. -/
def envOkRun : RunEnv :=
  { fetch := .ok [itemOkEnv], dbConnect := .ok (), summaryOk := true }

/-! ## Claim theorems: orchestrator -/

/-- C1 counterexample: an attachment whose processing ends in the
fatal-failure terminal status FAILED, for which the orchestrator makes no
attempt at all to mark the source attachment consumed (the mark block at
src/pipeline.py lines 210-219 sits inside the `try` and is skipped once an
exception handler runs), refuting the claim that FAILED items get a
marking attempt. -/
theorem C1_counterexample :
    (processSingle false itemParseFailEnv).1.status = .failed ∧
    (processSingle false itemParseFailEnv).2.markAttempts = 0 :=
  ⟨rfl, rfl⟩

/-- C1 (amended): the orchestrator attempts to mark the source attachment
consumed exactly when the item ends in a successful terminal status
(STORED or NOTIFIED); an item that ends FAILED gets no marking attempt;
and the outcome of the marking call is swallowed: it changes nothing in
the item's result or trace. -/
theorem C1_mark_consumed_success_only (dryRun : Bool) (env : ItemEnv) :
    ((processSingle dryRun env).2.markAttempts = 1 ↔
      ((processSingle dryRun env).1.status = .stored ∨
        (processSingle dryRun env).1.status = .notified)) ∧
    ((processSingle dryRun env).1.status = .failed →
      (processSingle dryRun env).2.markAttempts = 0) ∧
    (∀ b, processSingle dryRun { env with markOk := b } =
      processSingle dryRun env) := by
  refine ⟨?_, ?_, fun b => rfl⟩ <;>
  · cases hp : env.parse with
    | error e =>
      rw [processSingle_parse_error dryRun env e hp]
      cases e <;> cases dryRun <;> simp [handleExc]
    | ok inv =>
      cases hv : (env.validationOf inv).is_valid with
      | false =>
        rw [processSingle_invalid dryRun env inv hp hv]
        cases dryRun <;> simp
      | true =>
        cases dryRun with
        | true =>
          rw [processSingle_valid_dry env inv hp hv]
          simp
        | false =>
          cases hd : env.checkDuplicate with
          | error e =>
            rw [processSingle_dup_error env inv e hp hv hd]
            cases e <;> simp [handleExc]
          | ok b =>
            cases b with
            | true =>
              rw [processSingle_duplicate env inv hp hv hd]
              simp
            | false =>
              cases hi : env.insert with
              | error e =>
                rw [processSingle_insert_error env inv e hp hv hd hi]
                cases e <;> simp [handleExc]
              | ok u =>
                cases u
                rw [processSingle_stored env inv hp hv hd hi]
                cases env.notifySuccessOk <;> simp

/-- C1 witness: on a fully successful item the marking attempt happens and
the equivalence is inhabited. -/
theorem C1_mark_consumed_success_only_witness :
    ((processSingle false itemOkEnv).2.markAttempts = 1 ↔
      ((processSingle false itemOkEnv).1.status = .stored ∨
        (processSingle false itemOkEnv).1.status = .notified)) ∧
    ((processSingle false itemOkEnv).1.status = .failed →
      (processSingle false itemOkEnv).2.markAttempts = 0) :=
  ⟨(C1_mark_consumed_success_only false itemOkEnv).1,
   (C1_mark_consumed_success_only false itemOkEnv).2.1⟩

/-- C2 counterexample: an attachment whose processing ends FAILED because
the store insert raised `DatabaseError` (not dry-run) for which no failure
report at all is sent (the `DatabaseError`/`RetryExhaustedError` handler
at src/pipeline.py lines 236-244 never calls `_notify_failure`), refuting
the claim that every FAILED item produces exactly one failure report. -/
theorem C2_counterexample :
    (processSingle false itemDbErrEnv).1.status = .failed ∧
    (processSingle false itemDbErrEnv).2.failureReports = 0 :=
  ⟨rfl, rfl⟩

/-- C2 (amended): not in dry-run, exactly one failure report is sent for
an item ending VALIDATION_FAILED and for an item ending FAILED because of
a `PDFExtractionError`; an item ending DUPLICATE sends none; an item
ending FAILED because of any other error — a parse-stage unexpected error
(such as the `ValueError` escaping `InvoiceData.__post_init__`), a
`DatabaseError`/`RetryExhaustedError`, or an unexpected error from the
duplicate check or the insert — sends no failure report; never more than
one failure report is sent per item. -/
theorem C2_failure_reports (env : ItemEnv) :
    ((processSingle false env).1.status = .validationFailed →
      (processSingle false env).2.failureReports = 1) ∧
    (∀ e, env.parse = .error e →
      (processSingle false env).1.status = .failed ∧
      (processSingle false env).2.failureReports =
        (match e with | .pdfExtraction _ => 1 | _ => 0)) ∧
    ((processSingle false env).1.status = .duplicate →
      (processSingle false env).2.failureReports = 0) ∧
    (∀ inv e, env.parse = .ok inv →
      (env.validationOf inv).is_valid = true →
      (env.checkDuplicate = .error e ∨
        (env.checkDuplicate = .ok false ∧ env.insert = .error e)) →
      (processSingle false env).1.status = .failed ∧
      (processSingle false env).2.failureReports =
        (match e with | .pdfExtraction _ => 1 | _ => 0)) ∧
    (processSingle false env).2.failureReports ≤ 1 := by
  cases hp : env.parse with
  | error e =>
    rw [processSingle_parse_error false env e hp]
    cases e <;> simp [hp, handleExc]
  | ok inv =>
    cases hv : (env.validationOf inv).is_valid with
    | false =>
      rw [processSingle_invalid false env inv hp hv]
      simp [hp, hv]
      intro inv' e' h'
      subst h'
      simp [hv]
    | true =>
      cases hd : env.checkDuplicate with
      | error e =>
        rw [processSingle_dup_error env inv e hp hv hd]
        cases e <;> simp [hp, hv, hd, handleExc]
      | ok b =>
        cases b with
        | true =>
          rw [processSingle_duplicate env inv hp hv hd]
          simp [hp, hv, hd]
        | false =>
          cases hi : env.insert with
          | error e =>
            rw [processSingle_insert_error env inv e hp hv hd hi]
            cases e <;> simp [hp, hv, hd, hi, handleExc]
          | ok u =>
            cases u
            rw [processSingle_stored env inv hp hv hd hi]
            cases env.notifySuccessOk <;> simp [hp, hv, hd, hi]

/-- C2 witness: an extraction failure yields FAILED with exactly one
failure report, while a parse-stage unexpected error (the `ValueError`
from a zero total) yields FAILED with none. -/
theorem C2_failure_reports_witness :
    (itemParseFailEnv.parse = .error (.pdfExtraction "boom") ∧
      (processSingle false itemParseFailEnv).1.status = .failed ∧
      (processSingle false itemParseFailEnv).2.failureReports = 1) ∧
    (itemValueErrEnv.parse = .error (.other "Invoice total must be positive") ∧
      (processSingle false itemValueErrEnv).1.status = .failed ∧
      (processSingle false itemValueErrEnv).2.failureReports = 0) :=
  ⟨⟨rfl, (C2_failure_reports itemParseFailEnv).2.1 (.pdfExtraction "boom") rfl⟩,
   ⟨rfl, (C2_failure_reports itemValueErrEnv).2.1
      (.other "Invoice total must be positive") rfl⟩⟩

/-- C3 counterexample: a run whose batch fetch succeeds with a non-empty
batch still raises, because entering the store context
(`DatabaseLoader.__enter__` → `connect`) raised `DatabaseError`
(src/pipeline.py line 88), refuting the claim that the run raises an
error if and only if fetching the initial batch fails. -/
theorem C3_counterexample :
    envC3.fetch = .ok [itemOkEnv] ∧ [itemOkEnv] ≠ [] ∧
    runPipeline false envC3 = .error (.databaseErr "engine down") :=
  ⟨rfl, by simp, rfl⟩

/-- C3 (amended): the run raises exactly when the batch fetch fails or
when, for a non-empty batch, opening the store connection fails; whenever
the run returns, it returns one outcome per attachment, in order, produced
by the per-item processing (whose handler chain catches every per-item
error), and every returned outcome carries a terminal status. -/
theorem C3_run_raises_iff (dryRun : Bool) (env : RunEnv) :
    ((∃ e, runPipeline dryRun env = .error e) ↔
      ((∃ e, env.fetch = .error e) ∨
        (∃ l, env.fetch = .ok l ∧ l ≠ [] ∧ ∃ e, env.dbConnect = .error e))) ∧
    (∀ res t, runPipeline dryRun env = .ok (res, t) →
      (∀ l, env.fetch = .ok l →
        res = l.map (fun i => (processSingle dryRun i).1)) ∧
      ∀ r ∈ res, r.is_terminal = true) := by
  cases hf : env.fetch with
  | error e =>
    have hrun : runPipeline dryRun env = .error e := by
      simp [runPipeline, hf]
    constructor
    · exact iff_of_true ⟨e, hrun⟩ (.inl ⟨e, rfl⟩)
    · intro res t h
      rw [hrun] at h
      cases h
  | ok l =>
    by_cases hl : l.isEmpty
    · have hnil : l = [] := List.isEmpty_iff.mp hl
      subst hnil
      have hrun : runPipeline dryRun env = .ok ([], {}) := by
        simp [runPipeline, hf]
      constructor
      · refine iff_of_false ?_ ?_
        · rintro ⟨e, he⟩
          rw [hrun] at he
          cases he
        · rintro (⟨e, he⟩ | ⟨l', hl', hne, e, he⟩)
          · cases he
          · injection hl' with h2
            exact hne h2.symm
      · intro res t h
        rw [hrun] at h
        rw [Except.ok.injEq, Prod.mk.injEq] at h
        obtain ⟨h1, h2⟩ := h
        constructor
        · intro l' hl'
          injection hl' with h3
          simp [← h1, ← h3]
        · intro r hr
          rw [← h1] at hr
          cases hr
    · cases hdb : env.dbConnect with
      | error e =>
        have hrun : runPipeline dryRun env = .error e := by
          simp [runPipeline, hf, hl, hdb]
        constructor
        · refine iff_of_true ⟨e, hrun⟩ (.inr ⟨l, rfl, ?_, e, rfl⟩)
          intro hnil
          rw [hnil] at hl
          exact hl rfl
        · intro res t h
          rw [hrun] at h
          cases h
      | ok u =>
        cases u
        constructor
        · constructor
          · rintro ⟨e, he⟩
            simp [runPipeline, hf, hl, hdb] at he
          · rintro (⟨e, he⟩ | ⟨l', hl', hne, e, he⟩)
            · cases he
            · cases he
        · intro res t h
          simp [runPipeline, hf, hl, hdb] at h
          obtain ⟨hres, ht⟩ := h
          constructor
          · intro l' hl'
            injection hl' with h2
            subst h2
            rw [← hres]
            rfl
          · intro r hr
            rw [← hres] at hr
            rcases List.mem_map.mp hr with ⟨i, _, hi⟩
            rw [← hi]
            exact processSingle_terminal dryRun i

/-- C3 witness: a successful run over one attachment returns exactly the
per-item outcomes and the equivalence is inhabited. -/
theorem C3_run_raises_iff_witness :
    ((∃ e, runPipeline false envOkRun = .error e) ↔
      ((∃ e, envOkRun.fetch = .error e) ∨
        (∃ l, envOkRun.fetch = .ok l ∧ l ≠ [] ∧
          ∃ e, envOkRun.dbConnect = .error e))) ∧
    (∀ res t, runPipeline false envOkRun = .ok (res, t) →
      (∀ l, envOkRun.fetch = .ok l →
        res = l.map (fun i => (processSingle false i).1)) ∧
      ∀ r ∈ res, r.is_terminal = true) :=
  C3_run_raises_iff false envOkRun

/-- C4 witness: the equivalence at a concrete verdict. -/
theorem C4_validity_iff_no_errors_witness :
    (validate cfgEx [] [] 0 invEx).is_valid = true ↔
      (validate cfgEx [] [] 0 invEx).errors = [] :=
  C4_validity_iff_no_errors.2.2 cfgEx [] [] 0 invEx

/-! ## Field extractor (src/pdf_parser.py)

A compiled regex is modelled abstractly as `Pattern`: the function taking
the full text to `group(1)` of its first match (or `none`).  The ordered
per-field pattern lists and the first-match rule of `_extract_field` are
from the source; the regex engine itself and `strptime` (`_parse_date`)
stay abstract, as does `_extract_line_items` (no claim depends on its
internals and it cannot raise).  `Decimal(...)` on the strings reachable
from the total-amount regexes (digits, commas, one dot) is implemented
concretely; exponent/sign/special forms of the full `Decimal` grammar are
unreachable from those regexes.  Python `str.strip` is `pyStrip` (the
built-in `String.trim` is extensionally the same but does not reduce in
the kernel). -/

/-- Python `str.strip()`: drop whitespace at both ends. -/
def pyStrip (s : String) : String :=
  ⟨(((s.data.dropWhile Char.isWhitespace).reverse.dropWhile
      Char.isWhitespace).reverse)⟩

/-- One compiled regex, abstracted: `pattern.search(text)` returning
`group(1)`. -/
def Pattern : Type := String → Option String

/-- `PDFParser._extract_field`: try the patterns in order, first match
wins, and the matched group is stripped. -/
def extractField (patterns : List Pattern) (text : String) : Option String :=
  match patterns with
  | [] => none
  | p :: rest =>
    match p text with
    | some v => some (pyStrip v)
    | none => extractField rest text

/-- `PDFParser._extract_date`: extract the field, then parse it with the
fixed format cascade (abstracted as `parseDate`); either step failing
yields `none`. -/
def extractDate (patterns : List Pattern) (parseDate : String → Option ℤ)
    (text : String) : Option ℤ :=
  match extractField patterns text with
  | none => none
  | some s => parseDate s

/-- Digit characters to the natural number they denote. -/
def digitsToNat (l : List Char) : ℕ :=
  l.foldl (fun acc c => acc * 10 + (c.toNat - '0'.toNat)) 0

/-- `Decimal(cleaned)` on the comma- and dollar-stripped, trimmed string:
one or more digits with at most one dot somewhere (the fragment of the
decimal grammar reachable from the total-amount regexes). -/
def parseDecimalChars (l : List Char) : Option ℚ :=
  let intPart := l.takeWhile (fun c => c ≠ '.')
  match l.dropWhile (fun c => c ≠ '.') with
  | [] =>
    if intPart ≠ [] ∧ intPart.all Char.isDigit then
      some (digitsToNat intPart : ℚ)
    else none
  | _ :: fracPart =>
    if ¬ fracPart.contains '.' ∧ intPart ++ fracPart ≠ [] ∧
        (intPart ++ fracPart).all Char.isDigit then
      some ((digitsToNat intPart : ℚ) +
        (digitsToNat fracPart : ℚ) / (10 : ℚ) ^ fracPart.length)
    else none

/-- `PDFParser._parse_amount`: strip commas and dollar signs, trim, parse
as an exact decimal; `none` is the `PDFExtractionError` "Invalid amount
format" case. -/
def parseAmount (s : String) : Option ℚ :=
  parseDecimalChars
    (((s.data.filter (fun c => ¬ (c = ',' ∨ c = '$'))).dropWhile
        Char.isWhitespace).reverse.dropWhile Char.isWhitespace).reverse

/-- The distinct raise sites of `PDFParser.parse` and the `ValueError`
escaping from `InvoiceData.__post_init__`. -/
inductive ParseErr where
  | noText (filename : String)
  | missingInvoiceNumber (filename : String)
  | missingVendorName (filename : String)
  | missingTotalAmount (filename : String)
  | invalidAmount (raw : String)
  | valueError (msg : String)
deriving DecidableEq, Repr

/-- The six module-level ordered pattern lists of src/pdf_parser.py. -/
structure FieldPatterns where
  invoiceNumber : List Pattern
  datePatterns : List Pattern
  dueDatePatterns : List Pattern
  totalPatterns : List Pattern
  vendorPatterns : List Pattern
  poPatterns : List Pattern

/-- `PDFParser.parse` from the extracted text onward (src/pdf_parser.py
lines 75-134): empty text fails; invoice number, vendor name and total
amount are required in that order; the total string is parsed as an exact
decimal; invoice date defaults to today when unmatched or unparseable;
due date and PO number stay unset when unmatched; the record is built
through the checked `InvoiceData` constructor, whose `ValueError`
escapes as such. -/
def parsePdf (pats : FieldPatterns) (parseDate : String → Option ℤ)
    (lineItemsOf : String → List LineItem) (today : ℤ)
    (text : String) (filename : String) : Except ParseErr InvoiceData :=
  if pyStrip text = "" then .error (.noText filename)
  else
    match extractField pats.invoiceNumber text with
    | none => .error (.missingInvoiceNumber filename)
    | some invoiceNumber =>
      match extractField pats.vendorPatterns text with
      | none => .error (.missingVendorName filename)
      | some vendorName =>
        match extractField pats.totalPatterns text with
        | none => .error (.missingTotalAmount filename)
        | some totalStr =>
          match parseAmount totalStr with
          | none => .error (.invalidAmount totalStr)
          | some totalAmount =>
            match mkInvoiceData (pyStrip invoiceNumber) (pyStrip vendorName)
              ((extractDate pats.datePatterns parseDate text).getD today)
              (extractDate pats.dueDatePatterns parseDate text) totalAmount
              ((extractField pats.poPatterns text).map pyStrip)
              (lineItemsOf text) text with
            | .error m => .error (.valueError m)
            | .ok inv => .ok inv

/-! ### Symbolic execution of `parsePdf`, one lemma per raise site -/

lemma parsePdf_noNumber (pats : FieldPatterns) (parseDate : String → Option ℤ)
    (lineItemsOf : String → List LineItem) (today : ℤ) (text filename : String)
    (hne : pyStrip text ≠ "")
    (h1 : extractField pats.invoiceNumber text = none) :
    parsePdf pats parseDate lineItemsOf today text filename =
      .error (.missingInvoiceNumber filename) := by
  simp [parsePdf, hne, h1]

lemma parsePdf_noVendor (pats : FieldPatterns) (parseDate : String → Option ℤ)
    (lineItemsOf : String → List LineItem) (today : ℤ) (text filename n : String)
    (hne : pyStrip text ≠ "")
    (h1 : extractField pats.invoiceNumber text = some n)
    (h2 : extractField pats.vendorPatterns text = none) :
    parsePdf pats parseDate lineItemsOf today text filename =
      .error (.missingVendorName filename) := by
  simp [parsePdf, hne, h1, h2]

lemma parsePdf_noTotal (pats : FieldPatterns) (parseDate : String → Option ℤ)
    (lineItemsOf : String → List LineItem) (today : ℤ) (text filename n v : String)
    (hne : pyStrip text ≠ "")
    (h1 : extractField pats.invoiceNumber text = some n)
    (h2 : extractField pats.vendorPatterns text = some v)
    (h3 : extractField pats.totalPatterns text = none) :
    parsePdf pats parseDate lineItemsOf today text filename =
      .error (.missingTotalAmount filename) := by
  simp [parsePdf, hne, h1, h2, h3]

lemma parsePdf_badAmount (pats : FieldPatterns) (parseDate : String → Option ℤ)
    (lineItemsOf : String → List LineItem) (today : ℤ) (text filename n v t : String)
    (hne : pyStrip text ≠ "")
    (h1 : extractField pats.invoiceNumber text = some n)
    (h2 : extractField pats.vendorPatterns text = some v)
    (h3 : extractField pats.totalPatterns text = some t)
    (h4 : parseAmount t = none) :
    parsePdf pats parseDate lineItemsOf today text filename =
      .error (.invalidAmount t) := by
  simp [parsePdf, hne, h1, h2, h3, h4]

lemma parsePdf_mk (pats : FieldPatterns) (parseDate : String → Option ℤ)
    (lineItemsOf : String → List LineItem) (today : ℤ) (text filename n v t : String)
    (q : ℚ) (hne : pyStrip text ≠ "")
    (h1 : extractField pats.invoiceNumber text = some n)
    (h2 : extractField pats.vendorPatterns text = some v)
    (h3 : extractField pats.totalPatterns text = some t)
    (h4 : parseAmount t = some q) :
    parsePdf pats parseDate lineItemsOf today text filename =
      (match mkInvoiceData (pyStrip n) (pyStrip v)
          ((extractDate pats.datePatterns parseDate text).getD today)
          (extractDate pats.dueDatePatterns parseDate text) q
          ((extractField pats.poPatterns text).map pyStrip)
          (lineItemsOf text) text with
        | .error m => .error (.valueError m)
        | .ok inv => .ok inv) := by
  simp [parsePdf, hne, h1, h2, h3, h4]

/-! ## Claim theorem: field extractor -/

/-- Text of a document with a zero total (counterexample input). -/
def zeroText : String :=
  "Invoice Number: INV-2024-001\nVendor: Acme Corp\nTotal: $0.00"

/-- The behaviour of the real pattern lists of src/pdf_parser.py on
`zeroText`: `INVOICE_NUMBER_PATTERNS[0]` captures `INV-2024-001`,
`VENDOR_PATTERNS[0]` captures `Acme Corp`, `TOTAL_PATTERNS[0]` captures
`0.00`; neither date pattern nor the PO pattern matches. -/
def patsZeroTotal : FieldPatterns :=
  { invoiceNumber := [fun _ => some "INV-2024-001"]
    datePatterns := []
    dueDatePatterns := []
    totalPatterns := [fun _ => some "0.00"]
    vendorPatterns := [fun _ => some "Acme Corp"]
    poPatterns := [] }

/-- The same matchers but with the positive total `500.00` (witness
input). -/
def patsOkTotal : FieldPatterns :=
  { invoiceNumber := [fun _ => some "INV-2024-001"]
    datePatterns := []
    dueDatePatterns := []
    totalPatterns := [fun _ => some "500.00"]
    vendorPatterns := [fun _ => some "Acme Corp"]
    poPatterns := [] }

/-- C6 counterexample: a document whose invoice number, vendor name and
total amount all match (the real patterns match
`Invoice Number: INV-2024-001`, `Vendor: Acme Corp`, `Total: $0.00` of this
text, with the total regex capturing `0.00`) and whose invoice date alone
is unmatched, yet extraction does not succeed: the zero total makes
`InvoiceData.__post_init__` raise `ValueError`, refuting the claim that
extraction succeeds whenever only the invoice date is unmatched. -/
theorem C6_counterexample :
    (extractField patsZeroTotal.invoiceNumber zeroText).isSome = true ∧
    (extractField patsZeroTotal.vendorPatterns zeroText).isSome = true ∧
    (extractField patsZeroTotal.totalPatterns zeroText).isSome = true ∧
    extractDate patsZeroTotal.datePatterns (fun _ => none) zeroText = none ∧
    parsePdf patsZeroTotal (fun _ => none) (fun _ => []) 0 zeroText "invoice.pdf" =
      .error (.valueError "Invoice total must be positive") := by
  refine ⟨rfl, rfl, rfl, rfl, ?_⟩
  have hq : parseAmount "0.00" =
      some ((digitsToNat ['0'] : ℚ) + (digitsToNat ['0', '0'] : ℚ) / (10 : ℚ) ^ 2) :=
    rfl
  rw [parsePdf_mk patsZeroTotal (fun _ => none) (fun _ => []) 0 zeroText
    "invoice.pdf" "INV-2024-001" "Acme Corp" "0.00" _ (by decide) rfl rfl rfl hq]
  have hval : ((digitsToNat ['0'] : ℚ) +
      (digitsToNat ['0', '0'] : ℚ) / (10 : ℚ) ^ 2) = 0 := by
    norm_num [digitsToNat]
  rw [hval, mkInvoiceData, if_pos le_rfl]

/-- C6 (amended): for every non-empty document text, extraction fails
naming the missing required field exactly when the first unmatched field
among invoice number, vendor name, total amount (in that order) exists;
when all three match, the total parses, the parsed total is strictly
positive and the stripped invoice number is non-empty, extraction
succeeds, the invoice date defaulting to today when unmatched and the due
date and PO number left unset when unmatched.  (A matched but
non-positive total, or an all-whitespace matched invoice number, instead
fails record construction with a `ValueError`.) -/
theorem C6_required_fields (pats : FieldPatterns)
    (parseDate : String → Option ℤ) (lineItemsOf : String → List LineItem)
    (today : ℤ) (text filename : String) (hne : pyStrip text ≠ "") :
    (parsePdf pats parseDate lineItemsOf today text filename =
        .error (.missingInvoiceNumber filename) ↔
      extractField pats.invoiceNumber text = none) ∧
    (∀ n, extractField pats.invoiceNumber text = some n →
      (parsePdf pats parseDate lineItemsOf today text filename =
          .error (.missingVendorName filename) ↔
        extractField pats.vendorPatterns text = none)) ∧
    (∀ n v, extractField pats.invoiceNumber text = some n →
      extractField pats.vendorPatterns text = some v →
      (parsePdf pats parseDate lineItemsOf today text filename =
          .error (.missingTotalAmount filename) ↔
        extractField pats.totalPatterns text = none)) ∧
    (∀ n v t q, extractField pats.invoiceNumber text = some n →
      extractField pats.vendorPatterns text = some v →
      extractField pats.totalPatterns text = some t →
      parseAmount t = some q → 0 < q → pyStrip n ≠ "" →
      parsePdf pats parseDate lineItemsOf today text filename =
        .ok { invoice_number := pyStrip n, vendor_name := pyStrip v,
              invoice_date :=
                (extractDate pats.datePatterns parseDate text).getD today,
              due_date := extractDate pats.dueDatePatterns parseDate text,
              total_amount := q,
              po_number := (extractField pats.poPatterns text).map pyStrip,
              line_items := lineItemsOf text, raw_text := text }) := by
  have bash : ∀ (n : String), extractField pats.invoiceNumber text = some n →
      parsePdf pats parseDate lineItemsOf today text filename =
        .error (.missingInvoiceNumber filename) → False := by
    intro n h1 hP
    cases h2 : extractField pats.vendorPatterns text with
    | none => rw [parsePdf_noVendor pats parseDate lineItemsOf today text
        filename n hne h1 h2] at hP; cases hP
    | some v =>
      cases h3 : extractField pats.totalPatterns text with
      | none => rw [parsePdf_noTotal pats parseDate lineItemsOf today text
          filename n v hne h1 h2 h3] at hP; cases hP
      | some t =>
        cases h4 : parseAmount t with
        | none => rw [parsePdf_badAmount pats parseDate lineItemsOf today text
            filename n v t hne h1 h2 h3 h4] at hP; cases hP
        | some q =>
          rw [parsePdf_mk pats parseDate lineItemsOf today text
            filename n v t q hne h1 h2 h3 h4] at hP
          cases hmk : mkInvoiceData (pyStrip n) (pyStrip v)
              ((extractDate pats.datePatterns parseDate text).getD today)
              (extractDate pats.dueDatePatterns parseDate text) q
              ((extractField pats.poPatterns text).map pyStrip)
              (lineItemsOf text) text with
          | error m => rw [hmk] at hP; cases hP
          | ok inv => rw [hmk] at hP; cases hP
  refine ⟨?_, ?_, ?_, ?_⟩
  · cases h1 : extractField pats.invoiceNumber text with
    | none =>
      simp [parsePdf_noNumber pats parseDate lineItemsOf today text filename hne h1,
        h1]
    | some n =>
      constructor
      · intro hP
        exact absurd hP (fun hP => bash n h1 hP)
      · intro h
        cases h
  · intro n h1
    cases h2 : extractField pats.vendorPatterns text with
    | none =>
      simp [parsePdf_noVendor pats parseDate lineItemsOf today text filename
        n hne h1 h2, h2]
    | some v =>
      constructor
      · intro hP
        exfalso
        cases h3 : extractField pats.totalPatterns text with
        | none => rw [parsePdf_noTotal pats parseDate lineItemsOf today text
            filename n v hne h1 h2 h3] at hP; cases hP
        | some t =>
          cases h4 : parseAmount t with
          | none => rw [parsePdf_badAmount pats parseDate lineItemsOf today text
              filename n v t hne h1 h2 h3 h4] at hP; cases hP
          | some q =>
            rw [parsePdf_mk pats parseDate lineItemsOf today text
              filename n v t q hne h1 h2 h3 h4] at hP
            cases hmk : mkInvoiceData (pyStrip n) (pyStrip v)
                ((extractDate pats.datePatterns parseDate text).getD today)
                (extractDate pats.dueDatePatterns parseDate text) q
                ((extractField pats.poPatterns text).map pyStrip)
                (lineItemsOf text) text with
            | error m => rw [hmk] at hP; cases hP
            | ok inv => rw [hmk] at hP; cases hP
      · intro h
        cases h
  · intro n v h1 h2
    cases h3 : extractField pats.totalPatterns text with
    | none =>
      simp [parsePdf_noTotal pats parseDate lineItemsOf today text filename
        n v hne h1 h2 h3, h3]
    | some t =>
      constructor
      · intro hP
        exfalso
        cases h4 : parseAmount t with
        | none => rw [parsePdf_badAmount pats parseDate lineItemsOf today text
            filename n v t hne h1 h2 h3 h4] at hP; cases hP
        | some q =>
          rw [parsePdf_mk pats parseDate lineItemsOf today text
            filename n v t q hne h1 h2 h3 h4] at hP
          cases hmk : mkInvoiceData (pyStrip n) (pyStrip v)
              ((extractDate pats.datePatterns parseDate text).getD today)
              (extractDate pats.dueDatePatterns parseDate text) q
              ((extractField pats.poPatterns text).map pyStrip)
              (lineItemsOf text) text with
          | error m => rw [hmk] at hP; cases hP
          | ok inv => rw [hmk] at hP; cases hP
      · intro h
        cases h
  · intro n v t q h1 h2 h3 h4 hq hn
    rw [parsePdf_mk pats parseDate lineItemsOf today text filename
      n v t q hne h1 h2 h3 h4]
    rw [mkInvoiceData, if_neg (not_le.mpr hq), if_neg hn]

/-- C6 witness: a document with required fields matched, a positive total
and no date match extracts successfully with the invoice date defaulted. -/
theorem C6_required_fields_witness :
    pyStrip zeroText ≠ "" ∧
    (0 : ℚ) < (digitsToNat ['5', '0', '0'] : ℚ) +
      (digitsToNat ['0', '0'] : ℚ) / (10 : ℚ) ^ 2 ∧
    parsePdf patsOkTotal (fun _ => none) (fun _ => []) 0 zeroText "invoice.pdf" =
      .ok { invoice_number := pyStrip "INV-2024-001",
            vendor_name := pyStrip "Acme Corp",
            invoice_date :=
              (extractDate patsOkTotal.datePatterns (fun _ => none) zeroText).getD 0,
            due_date := extractDate patsOkTotal.dueDatePatterns (fun _ => none) zeroText,
            total_amount := (digitsToNat ['5', '0', '0'] : ℚ) +
              (digitsToNat ['0', '0'] : ℚ) / (10 : ℚ) ^ 2,
            po_number := (extractField patsOkTotal.poPatterns zeroText).map pyStrip,
            line_items := [], raw_text := zeroText } := by
  have h5 : digitsToNat ['5', '0', '0'] = 500 := rfl
  have h0 : digitsToNat ['0', '0'] = 0 := rfl
  have hpos : (0 : ℚ) < (digitsToNat ['5', '0', '0'] : ℚ) +
      (digitsToNat ['0', '0'] : ℚ) / (10 : ℚ) ^ 2 := by
    rw [h5, h0]
    norm_num
  refine ⟨by decide, hpos, ?_⟩
  exact (C6_required_fields patsOkTotal (fun _ => none) (fun _ => []) 0 zeroText
    "invoice.pdf" (by decide)).2.2.2 "INV-2024-001" "Acme Corp" "500.00" _
    rfl rfl rfl rfl hpos (by decide)

end InvoiceAutomation
